import Mathlib

/-!
# Shallow embedding of the MITRotor momentum-theory solver core

This file embeds `src/MITRotor/MomentumTheory.py`: the `MomentumSolution`
record, the `LimitedHeck` closed-form model, the iterative `Heck` model, the
`UnifiedMomentum` model and the `ThrustBasedUnified` model, together with the
fixed-point iteration engine they share.

Numeric domain.  The Python code computes with IEEE floats via NumPy.  We
embed float values as `Option ℝ`: `some r` is an ordinary value, `none`
models not-a-number (NaN).  The embedded operations propagate `none` the way
NumPy propagates NaN (including `nan * 0 = nan`), `dSqrt` of a negative
operand is `none` (NumPy emits NaN there), and `dDiv` by zero is `none`.
The last point conflates NumPy's `x/0 = ±inf` (for `x ≠ 0`) with its
`0/0 = nan`; every theorem below that touches a division by zero only does so
with a zero numerator (the `0/0 = nan` case), so nothing proved here depends
on the conflation.  Scalar values stand for the elementwise (per-annulus)
semantics of the source; array shape is not modelled.

The iteration engine `fixedpointiteration` lives in
`MITRotor/Utilities.py`, which is not part of the sources given; it is
modelled from the spec (see its doc comment).  The nonlinear pressure field
(`MITRotor/PressureSolver/ADPressureField.py`, also absent) is the external
collaborator the spec scopes out; it enters only through its
`get_pressure` interface, which we keep abstract as a field of
`UnifiedMomentum`.
-/

open scoped Classical

noncomputable section

/-- The embedded float domain: `some r` is a finite value, `none` is NaN. -/
def D : Type := Option ℝ

/-- Embed a real constant (an ordinary, non-NaN float). -/
def dC (r : ℝ) : D := some r

/-- Addition; NaN propagates. -/
def dAdd : D → D → D
  | some a, some b => some (a + b)
  | _, _ => none

/-- Subtraction; NaN propagates. -/
def dSub : D → D → D
  | some a, some b => some (a - b)
  | _, _ => none

/-- Multiplication; NaN propagates (in IEEE floats `nan * 0 = nan`). -/
def dMul : D → D → D
  | some a, some b => some (a * b)
  | _, _ => none

/-- Negation; NaN propagates. -/
def dNeg : D → D
  | some a => some (-a)
  | none => none

/-- Division; NaN propagates and any division by zero yields `none`
(see the header on the `±inf` conflation). -/
def dDiv : D → D → D
  | some a, some b => if b = 0 then none else some (a / b)
  | _, _ => none

/-- `x ** k` for a natural exponent; NaN propagates. -/
def dPow : D → ℕ → D
  | some a, k => some (a ^ k)
  | none, _ => none

/-- `np.sqrt`: NaN on negative operands, NaN propagates. -/
def dSqrt : D → D
  | some a => if a < 0 then none else some (Real.sqrt a)
  | none => none

/-- `np.arctan`; NaN propagates. -/
def dArctan : D → D
  | some a => some (Real.arctan a)
  | none => none

/-- `np.zeros_like`: a zero of the same shape, whatever the value was
(`np.zeros_like(nan) = 0`). -/
def zeros_like (x : D) : D := dC 0

/-- `np.sign`: `-1`, `0` or `1` (on non-NaN input). -/
def npSign (x : ℝ) : ℝ := if x < 0 then -1 else if x = 0 then 0 else 1

/-- State vectors handed to the iteration engine. -/
def Vec (n : ℕ) : Type := Fin n → D

/-- Result bundle of the fixed-point iteration engine: final state, number of
iterations performed, convergence flag. -/
structure FixedPointResult (n : ℕ) where
  x : Vec n
  niter : ℕ
  converged : Bool

/-- The engine's stopping test: every residual component is an ordinary value
of magnitude below `eps`.  This is `np.max(np.abs(r)) < eps`; a NaN component
makes the comparison false, exactly as in NumPy. -/
def resBelow {n : ℕ} (r : Vec n) (eps : ℝ) : Prop :=
  ∀ i, ∃ v, r i = some v ∧ |v| < eps

/-- One relaxed fixed-point update `x + relax * r`. -/
def updateVec {n : ℕ} (x : Vec n) (relax : ℝ) (r : Vec n) : Vec n :=
  fun i => dAdd (x i) (dMul (dC relax) (r i))

/-- Modelled from the spec: the loop body of
`MITRotor.Utilities.fixedpointiteration` (the file `Utilities.py` is not
among the given sources).  Per the spec (§4.1): repeatedly evaluate the
residual at the current state; stop with `converged = true` when the maximum
elementwise absolute residual falls below `eps`; otherwise update
`x ← x + relax * R x`; after `maxiter` iterations without meeting the
tolerance stop with `converged = false`, returning the last iterate. -/
def fpiGo {n : ℕ} (R : Vec n → Vec n) (eps relax : ℝ) :
    ℕ → Vec n → ℕ → FixedPointResult n
  | 0, x, k => ⟨x, k, false⟩
  | m + 1, x, k =>
    if resBelow (R x) eps then ⟨x, k + 1, true⟩
    else fpiGo R eps relax m (updateVec x relax (R x)) (k + 1)

/-- Modelled from the spec: the fixed-point iteration engine
`MITRotor.Utilities.fixedpointiteration` (its source file is not under
`src/`).  `maxiter` and `eps` are explicit here; call sites that rely on the
engine's own defaults in Python take them as parameters. -/
def fixedpointiteration {n : ℕ} (R : Vec n → Vec n) (x0 : Vec n)
    (maxiter : ℕ) (eps relax : ℝ) : FixedPointResult n :=
  fpiGo R eps relax maxiter x0 0

/-- The `MomentumSolution` dataclass.  Field defaults follow the source:
`dp_NL = 0.0`, `niter = 1`, `converged = True`, `beta = 0.0`.  `yaw` and
`beta` are plain inputs everywhere in the source, so they stay `ℝ`;
`Ctprime` is a solved state component in `ThrustBasedUnified`, so it is `D`. -/
structure MomentumSolution where
  Ctprime : D
  yaw : ℝ
  an : D
  u4 : D
  v4 : D
  dp : D
  dp_NL : D := dC 0
  niter : ℕ := 1
  converged : Bool := true
  beta : ℝ := 0

/-- Derived thrust coefficient `Ct = Ctprime * (1 - an)**2 * cos(yaw)**2`
(computed on read, not stored). -/
def MomentumSolution.Ct (s : MomentumSolution) : D :=
  dMul (dMul s.Ctprime (dPow (dSub (dC 1) s.an) 2)) (dC (Real.cos s.yaw ^ 2))

/-- Derived power coefficient `Cp = Ctprime * ((1 - an) * cos(yaw))**3`
(computed on read, not stored). -/
def MomentumSolution.Cp (s : MomentumSolution) : D :=
  dMul s.Ctprime (dPow (dMul (dSub (dC 1) s.an) (dC (Real.cos s.yaw))) 3)

/-- Derived near-wake length
`x0 = cos(yaw) * sqrt(((1-an)*cos(yaw))/(1+u4)) / (2/(1+u4) * (beta*(1-u4)/2))`
(computed on read, not stored). -/
def MomentumSolution.x0 (s : MomentumSolution) : D :=
  dDiv
    (dMul (dC (Real.cos s.yaw))
      (dSqrt (dDiv (dMul (dSub (dC 1) s.an) (dC (Real.cos s.yaw))) (dAdd (dC 1) s.u4))))
    (dMul (dDiv (dC 2) (dAdd (dC 1) s.u4))
      (dDiv (dMul (dC s.beta) (dSub (dC 1) s.u4)) (dC 2)))

/-- `LimitedHeck.solve`: the closed-form limiting model.  No iteration; the
record keeps the dataclass defaults `niter = 1`, `converged = True`. -/
def LimitedHeck.solve (Ctprime yaw : ℝ) : MomentumSolution :=
  let a := dDiv (dC (Ctprime * Real.cos yaw ^ 2)) (dC (4 + Ctprime * Real.cos yaw ^ 2))
  let u4 := dDiv (dC (4 - Ctprime * Real.cos yaw ^ 2)) (dC (4 + Ctprime * Real.cos yaw ^ 2))
  let v4 := dDiv (dC (-(4 * Ctprime * Real.sin yaw * Real.cos yaw ^ 2)))
    (dC ((4 + Ctprime * Real.cos yaw ^ 2) ^ 2))
  let dp := dMul (dC 0) a
  { Ctprime := dC Ctprime, yaw := yaw, an := a, u4 := u4, v4 := v4, dp := dp }

/-- `Heck.initial_condition`: the closed-form solution as initial guess. -/
def Heck.initial_condition (Ctprime yaw : ℝ) : Vec 3 :=
  let sol := LimitedHeck.solve Ctprime yaw
  ![sol.an, sol.u4, sol.v4]

/-- `Heck.residual` (Eq. 2.15 of the source): residuals of `(a, u4, v4)`.
`np.sqrt(Ctprime)` is NaN for negative `Ctprime`, hence the `dSqrt`. -/
def Heck.residual (Ctprime yaw : ℝ) (x : Vec 3) : Vec 3 :=
  let a := x 0
  let u4 := x 1
  let v4 := x 2
  let e_a := dSub (dSub (dC 1)
    (dDiv (dSqrt (dSub (dSub (dC 1) (dPow u4 2)) (dPow v4 2)))
      (dMul (dSqrt (dC Ctprime)) (dC (Real.cos yaw))))) a
  let e_u4 := dSub (dSub (dC 1)
    (dMul (dMul (dC (0.5 * Ctprime)) (dSub (dC 1) a)) (dC (Real.cos yaw ^ 2)))) u4
  let e_v4 := dSub (dMul (dMul (dC (-0.25 * Ctprime)) (dPow (dSub (dC 1) a) 2))
    (dC (Real.sin yaw * Real.cos yaw ^ 2))) v4
  ![e_a, e_u4, e_v4]

/-- The relaxation policy of `Heck.solve`:
`relax = 0.9 if np.max(Ctprime) > 15 else 0.1` (scalar case). -/
def Heck.relaxFor (Ctprime : ℝ) : ℝ := if 15 < Ctprime then 0.9 else 0.1

/-- `Heck.solve`.  `x0 = none` selects the internally computed initial guess,
mirroring the `if x0 is None` branch of the source; `eps` defaults to `1e-5`
in Python and `maxiter` stands for the engine's own default (the source
forwards no `maxiter`; its `**kwargs` are dropped).  On non-convergence the
state fields are replaced by NaN (`np.nan * np.zeros_like(x0)`), and only
then is `dp = np.zeros_like(a)` formed — so `dp` is zero in both branches. -/
def Heck.solve (Ctprime yaw : ℝ) (x0 : Option (Vec 3)) (eps : ℝ)
    (maxiter : ℕ) : MomentumSolution :=
  let x0v := x0.getD (Heck.initial_condition Ctprime yaw)
  let sol := fixedpointiteration (Heck.residual Ctprime yaw) x0v maxiter eps
    (Heck.relaxFor Ctprime)
  let a := if sol.converged then sol.x 0 else none
  let u4 := if sol.converged then sol.x 1 else none
  let v4 := if sol.converged then sol.x 2 else none
  let dp := zeros_like a
  { Ctprime := dC Ctprime, yaw := yaw, an := a, u4 := u4, v4 := v4, dp := dp,
    niter := sol.niter, converged := sol.converged }

/-- The `UnifiedMomentum` model: the near-wake tuning parameter `beta`
(default `0.1403` in Python) and the nonlinear pressure collaborator, kept
abstract behind its `get_pressure(CT/2, x0)` interface (its implementation,
`PressureSolver/ADPressureField.py`, is outside the given sources and out of
the spec's scope). -/
structure UnifiedMomentum where
  beta : ℝ
  get_pressure : D → D → D

/-- `UnifiedMomentum.initial_condition`: closed-form guess with the positive
sign on `v4` (sign convention preserved as in the source) and `dp = 0`. -/
def UnifiedMomentum.initial_condition (Ctprime yaw : ℝ) : Vec 4 :=
  let an := dDiv (dC (Ctprime * Real.cos yaw ^ 2)) (dC (4 + Ctprime * Real.cos yaw ^ 2))
  let u4 := dDiv (dC (4 - Ctprime * Real.cos yaw ^ 2)) (dC (4 + Ctprime * Real.cos yaw ^ 2))
  let v4 := dDiv (dC (4 * Ctprime * Real.sin yaw * Real.cos yaw ^ 2))
    (dC ((4 + Ctprime * Real.cos yaw ^ 2) ^ 2))
  let dp := dC 0
  ![an, u4, v4, dp]

/-- The near-wake length expression recomputed by both
`UnifiedMomentum.residual` and `UnifiedMomentum._nonlinear_pressure`
(lines 170-174 and 211-215 of the source are the same formula). -/
def UnifiedMomentum.x0length (beta yaw : ℝ) (an u4 : D) : D :=
  dDiv
    (dMul (dC (Real.cos yaw))
      (dSqrt (dDiv (dMul (dSub (dC 1) an) (dC (Real.cos yaw))) (dAdd (dC 1) u4))))
    (dMul (dDiv (dC 2) (dAdd (dC 1) u4))
      (dDiv (dMul (dC beta) (dSub (dC 1) u4)) (dC 2)))

/-- `UnifiedMomentum._nonlinear_pressure`: calls the collaborator with the
half disk-averaged thrust coefficient `CT/2` and the near-wake length.
`Ctprime` is `D` because `ThrustBasedUnified` feeds a solved state component
here. -/
def UnifiedMomentum.nonlinear_pressure (m : UnifiedMomentum) (Ctprime : D)
    (yaw : ℝ) (an u4 : D) : D :=
  let x0 := UnifiedMomentum.x0length m.beta yaw an u4
  let CT := dMul (dMul Ctprime (dPow (dSub (dC 1) an) 2)) (dC (Real.cos yaw ^ 2))
  m.get_pressure (dDiv CT (dC 2)) x0

/-- `UnifiedMomentum.residual`: residuals of `(an, u4, v4, dp)`. -/
def UnifiedMomentum.residual (m : UnifiedMomentum) (Ctprime : D) (yaw : ℝ)
    (x : Vec 4) : Vec 4 :=
  let an := x 0
  let u4 := x 1
  let v4 := x 2
  let dp := x 3
  let p_g := m.nonlinear_pressure Ctprime yaw an u4
  let x0 := UnifiedMomentum.x0length m.beta yaw an u4
  let e_an := dSub (dSub (dC 1) (dSqrt (dAdd
    (dDiv (dNeg dp) (dMul (dMul (dC 0.5) Ctprime) (dC (Real.cos yaw ^ 2))))
    (dDiv (dSub (dSub (dC 1) (dPow u4 2)) (dPow v4 2))
      (dMul Ctprime (dC (Real.cos yaw ^ 2))))))) an
  let e_u4 := dSub (dAdd (dAdd
    (dMul (dMul (dMul (dC (-(1 / 4))) Ctprime) (dSub (dC 1) an)) (dC (Real.cos yaw ^ 2)))
    (dC (1 / 2)))
    (dMul (dC (1 / 2)) (dSqrt (dSub
      (dPow (dSub (dMul (dMul (dMul (dC (1 / 2)) Ctprime) (dSub (dC 1) an))
        (dC (Real.cos yaw ^ 2))) (dC 1)) 2)
      (dMul (dC 4) dp))))) u4
  let e_v4 := dSub (dMul (dMul (dMul (dC (-(1 / 4))) Ctprime)
    (dPow (dSub (dC 1) an) 2)) (dC (Real.sin yaw * Real.cos yaw ^ 2))) v4
  let e_dp := dSub (dAdd
    (dMul (dMul (dMul (dMul (dC (-(1 / (2 * Real.pi)))) Ctprime)
      (dPow (dSub (dC 1) an) 2)) (dC (Real.cos yaw ^ 2)))
      (dArctan (dDiv (dC 1) x0)))
    p_g) dp
  ![e_an, e_u4, e_v4, e_dp]

/-- `UnifiedMomentum.solve`.  The `x0` parameter is accepted but the source
(line 224) unconditionally recomputes `x0 = self.initial_condition(...)`, so
a supplied guess is discarded; the embedding mirrors that.  `eps` stands for
the engine default (Python passes none).  On non-convergence all four state
fields are replaced by NaN; `dp_NL` is a fresh collaborator evaluation at the
(possibly substituted) final state. -/
def UnifiedMomentum.solve (m : UnifiedMomentum) (Ctprime yaw : ℝ)
    (x0 : Option (Vec 4)) (maxiter : ℕ) (relax eps : ℝ) : MomentumSolution :=
  let x0v := UnifiedMomentum.initial_condition Ctprime yaw
  let sol := fixedpointiteration (m.residual (dC Ctprime) yaw) x0v maxiter eps relax
  let a := if sol.converged then sol.x 0 else none
  let u4 := if sol.converged then sol.x 1 else none
  let v4 := if sol.converged then sol.x 2 else none
  let dp := if sol.converged then sol.x 3 else none
  let p_g := m.nonlinear_pressure (dC Ctprime) yaw a u4
  { Ctprime := dC Ctprime, yaw := yaw, an := a, u4 := u4, v4 := v4, dp := dp,
    dp_NL := p_g, niter := sol.niter, converged := sol.converged, beta := m.beta }

/-- `ThrustBasedUnified.initial_condition`: guess from the thrust coefficient
`Ct`, with `Ctprime = np.sign(Ct)` as fifth state component. -/
def ThrustBasedUnified.initial_condition (Ct : ℝ) : Vec 5 :=
  ![dC (0.5 * Ct), dC (1 - Ct), dC 0, dC 0, dC (npSign Ct)]

/-- `ThrustBasedUnified.residual`: the four `UnifiedMomentum` residuals
applied to the current `Ctprime` iterate, plus
`e_Ctprime = Ct / ((1 - an)**2 * cos(yaw)**2) - Ctprime`.
`ThrustBasedUnified` inherits `beta` and the pressure collaborator from
`UnifiedMomentum`, so it is parametrised by the same structure `m`. -/
def ThrustBasedUnified.residual (m : UnifiedMomentum) (Ct yaw : ℝ)
    (x : Vec 5) : Vec 5 :=
  let an := x 0
  let u4 := x 1
  let v4 := x 2
  let dp := x 3
  let Ctprime := x 4
  let r := m.residual Ctprime yaw ![an, u4, v4, dp]
  let e_Ctprime := dSub
    (dDiv (dC Ct) (dMul (dPow (dSub (dC 1) an) 2) (dC (Real.cos yaw ^ 2)))) Ctprime
  ![r 0, r 1, r 2, r 3, e_Ctprime]

/-- `ThrustBasedUnified.solve`.  The `x0` parameter is discarded (line 276
recomputes it unconditionally).  `eps` stands for the engine default.  No
NaN substitution on failure: the raw final iterate is packaged as-is, and
`dp_NL` keeps its dataclass default `0` (the `dp_NL=p_g` line is commented
out in the source). -/
def ThrustBasedUnified.solve (m : UnifiedMomentum) (Ct yaw : ℝ)
    (x0 : Option (Vec 5)) (relax : ℝ) (maxiter : ℕ) (eps : ℝ) : MomentumSolution :=
  let x0v := ThrustBasedUnified.initial_condition Ct
  let sol := fixedpointiteration (ThrustBasedUnified.residual m Ct yaw) x0v
    maxiter eps relax
  { Ctprime := sol.x 4, yaw := yaw, an := sol.x 0, u4 := sol.x 1, v4 := sol.x 2,
    dp := sol.x 3, niter := sol.niter, converged := sol.converged, beta := m.beta }

/-- A concrete `UnifiedMomentum` instance for closed evaluations:
`beta = 1` and a collaborator that always returns pressure `0`. -/
def testModelZero : UnifiedMomentum := ⟨1, fun p q => some 0⟩

/-- A concrete `UnifiedMomentum` instance for closed evaluations:
`beta = sqrt(1/2)` (so the near-wake length is `1` at the probe state) and
a collaborator that always returns pressure `7`. -/
def testModelSeven : UnifiedMomentum := ⟨Real.sqrt (1 / 2), fun p q => some 7⟩

/-! ## Computation rules for the embedded float operations -/

@[simp]
lemma dC_eq_some (r : ℝ) : dC r = some r := rfl

@[simp]
lemma dAdd_some_some (a b : ℝ) : dAdd (some a) (some b) = some (a + b) := rfl

@[simp]
lemma dAdd_none_left (b : D) : dAdd none b = none := rfl

@[simp]
lemma dAdd_none_right (a : D) : dAdd a none = none := by
  cases a <;> rfl

@[simp]
lemma dSub_some_some (a b : ℝ) : dSub (some a) (some b) = some (a - b) := rfl

@[simp]
lemma dSub_none_left (b : D) : dSub none b = none := rfl

@[simp]
lemma dSub_none_right (a : D) : dSub a none = none := by
  cases a <;> rfl

@[simp]
lemma dMul_some_some (a b : ℝ) : dMul (some a) (some b) = some (a * b) := rfl

@[simp]
lemma dMul_none_left (b : D) : dMul none b = none := rfl

@[simp]
lemma dMul_none_right (a : D) : dMul a none = none := by
  cases a <;> rfl

@[simp]
lemma dNeg_some (a : ℝ) : dNeg (some a) = some (-a) := rfl

@[simp]
lemma dNeg_none : dNeg none = none := rfl

@[simp]
lemma dDiv_some_some (a b : ℝ) (h : b ≠ 0) : dDiv (some a) (some b) = some (a / b) := by
  simp [dDiv, h]

lemma dDiv_zero_denom (a : D) {b : ℝ} (h : b = 0) : dDiv a (some b) = none := by
  cases a <;> simp [dDiv, h]

@[simp]
lemma dDiv_none_left (b : D) : dDiv none b = none := rfl

@[simp]
lemma dDiv_none_right (a : D) : dDiv a none = none := by
  cases a <;> rfl

@[simp]
lemma dPow_some (a : ℝ) (k : ℕ) : dPow (some a) k = some (a ^ k) := rfl

@[simp]
lemma dPow_none (k : ℕ) : dPow none k = none := rfl

lemma dSqrt_some_nonneg {a : ℝ} (h : 0 ≤ a) : dSqrt (some a) = some (Real.sqrt a) := by
  simp [dSqrt, not_lt.mpr h]

lemma dSqrt_some_neg {a : ℝ} (h : a < 0) : dSqrt (some a) = none := by
  simp [dSqrt, h]

@[simp]
lemma dSqrt_zero : dSqrt (some 0) = some 0 := by
  rw [dSqrt_some_nonneg le_rfl, Real.sqrt_zero]

@[simp]
lemma dSqrt_one : dSqrt (some 1) = some 1 := by
  rw [dSqrt_some_nonneg zero_le_one, Real.sqrt_one]

@[simp]
lemma dDiv_some_zero (a : D) : dDiv a (some 0) = none := by
  cases a <;> simp [dDiv]

@[simp]
lemma dSqrt_none : dSqrt none = none := rfl

@[simp]
lemma dArctan_some (a : ℝ) : dArctan (some a) = some (Real.arctan a) := rfl

@[simp]
lemma dArctan_none : dArctan none = none := rfl

@[simp]
lemma zeros_like_eq (x : D) : zeros_like x = some 0 := rfl

@[simp]
lemma npSign_zero : npSign 0 = 0 := by
  simp [npSign]

@[simp]
lemma npSign_one : npSign 1 = 1 := by
  norm_num [npSign]

/-- If a residual is a `dSub` and evaluates to an ordinary value, both of its
operands were ordinary values. -/
lemma dSub_eq_some {a b : D} {v : ℝ} (h : dSub a b = some v) :
    ∃ a' b', a = some a' ∧ b = some b' := by
  cases a with
  | none => simp at h
  | some a' =>
    cases b with
    | none => simp at h
    | some b' => exact ⟨a', b', rfl, rfl⟩

/-! ## Component access for the vector notation -/

@[simp]
lemma vec3_at0 (a b c : D) : (![a, b, c] : Vec 3) 0 = a := rfl

@[simp]
lemma vec3_at1 (a b c : D) : (![a, b, c] : Vec 3) 1 = b := rfl

@[simp]
lemma vec3_at2 (a b c : D) : (![a, b, c] : Vec 3) 2 = c := rfl

@[simp]
lemma vec4_at0 (a b c d : D) : (![a, b, c, d] : Vec 4) 0 = a := rfl

@[simp]
lemma vec4_at1 (a b c d : D) : (![a, b, c, d] : Vec 4) 1 = b := rfl

@[simp]
lemma vec4_at2 (a b c d : D) : (![a, b, c, d] : Vec 4) 2 = c := rfl

@[simp]
lemma vec4_at3 (a b c d : D) : (![a, b, c, d] : Vec 4) 3 = d := rfl

@[simp]
lemma vec5_at0 (a b c d e : D) : (![a, b, c, d, e] : Vec 5) 0 = a := rfl

@[simp]
lemma vec5_at1 (a b c d e : D) : (![a, b, c, d, e] : Vec 5) 1 = b := rfl

@[simp]
lemma vec5_at2 (a b c d e : D) : (![a, b, c, d, e] : Vec 5) 2 = c := rfl

@[simp]
lemma vec5_at3 (a b c d e : D) : (![a, b, c, d, e] : Vec 5) 3 = d := rfl

@[simp]
lemma vec5_at4 (a b c d e : D) : (![a, b, c, d, e] : Vec 5) 4 = e := rfl

/-! ## Engine lemmas -/

/-- The stopping test on a 3-vector, componentwise. -/
lemma resBelow3_iff (r : Vec 3) (eps : ℝ) :
    resBelow r eps ↔ (∃ v, r 0 = some v ∧ |v| < eps) ∧
      (∃ v, r 1 = some v ∧ |v| < eps) ∧ (∃ v, r 2 = some v ∧ |v| < eps) := by
  constructor
  · intro h
    exact ⟨h 0, h 1, h 2⟩
  · rintro ⟨h0, h1, h2⟩ i
    fin_cases i
    · exact h0
    · exact h1
    · exact h2

/-- The stopping test on a 5-vector, componentwise. -/
lemma resBelow5_iff (r : Vec 5) (eps : ℝ) :
    resBelow r eps ↔ (∃ v, r 0 = some v ∧ |v| < eps) ∧
      (∃ v, r 1 = some v ∧ |v| < eps) ∧ (∃ v, r 2 = some v ∧ |v| < eps) ∧
      (∃ v, r 3 = some v ∧ |v| < eps) ∧ (∃ v, r 4 = some v ∧ |v| < eps) := by
  constructor
  · intro h
    exact ⟨h 0, h 1, h 2, h 3, h 4⟩
  · rintro ⟨h0, h1, h2, h3, h4⟩ i
    fin_cases i
    · exact h0
    · exact h1
    · exact h2
    · exact h3
    · exact h4

/-- One NaN residual component defeats the stopping test. -/
lemma not_resBelow_of_none {n : ℕ} {r : Vec n} {eps : ℝ} (i : Fin n)
    (h : r i = none) : ¬ resBelow r eps := by
  intro hr
  obtain ⟨v, hv, _⟩ := hr i
  rw [h] at hv
  exact Option.noConfusion hv

/-- A NaN residual component makes the corresponding updated component NaN. -/
lemma updateVec_none {n : ℕ} (x : Vec n) (relax : ℝ) (r : Vec n) (i : Fin n)
    (h : r i = none) : updateVec x relax r i = none := by
  simp [updateVec, h]

lemma fpiGo_zero {n : ℕ} (R : Vec n → Vec n) (eps relax : ℝ) (x : Vec n) (k : ℕ) :
    fpiGo R eps relax 0 x k = ⟨x, k, false⟩ := by
  simp [fpiGo]

lemma fpiGo_succ_pass {n : ℕ} (R : Vec n → Vec n) (eps relax : ℝ) (m : ℕ)
    (x : Vec n) (k : ℕ) (h : resBelow (R x) eps) :
    fpiGo R eps relax (m + 1) x k = ⟨x, k + 1, true⟩ := by
  simp [fpiGo, h]

lemma fpiGo_succ_fail {n : ℕ} (R : Vec n → Vec n) (eps relax : ℝ) (m : ℕ)
    (x : Vec n) (k : ℕ) (h : ¬ resBelow (R x) eps) :
    fpiGo R eps relax (m + 1) x k =
      fpiGo R eps relax m (updateVec x relax (R x)) (k + 1) := by
  simp [fpiGo, h]

/-- A single-budget run that already meets the tolerance at the initial
state returns it converged with `niter = k + 1`. -/
lemma fpiGo_one_pass {n : ℕ} (R : Vec n → Vec n) (eps relax : ℝ) (x : Vec n)
    (k : ℕ) (h : resBelow (R x) eps) :
    fpiGo R eps relax 1 x k = ⟨x, k + 1, true⟩ :=
  fpiGo_succ_pass R eps relax 0 x k h

/-- If an invariant `P` forces some residual component `i0` to be NaN and is
preserved by the update, the iteration never converges. -/
lemma fpiGo_stuck {n : ℕ} (R : Vec n → Vec n) (eps relax : ℝ) (i0 : Fin n)
    (P : Vec n → Prop) (hR : ∀ x, P x → R x i0 = none)
    (hP : ∀ x, P x → P (updateVec x relax (R x))) :
    ∀ m k x, P x → (fpiGo R eps relax m x k).converged = false := by
  intro m
  induction m with
  | zero => intro k x _; rw [fpiGo_zero]
  | succ m ih =>
    intro k x hx
    rw [fpiGo_succ_fail R eps relax m x k (not_resBelow_of_none i0 (hR x hx))]
    exact ih (k + 1) (updateVec x relax (R x)) (hP x hx)

/-- Under the hypotheses of `fpiGo_stuck`, once component `i0` is NaN it
stays NaN in the final state. -/
lemma fpiGo_none_frozen {n : ℕ} (R : Vec n → Vec n) (eps relax : ℝ) (i0 : Fin n)
    (P : Vec n → Prop) (hR : ∀ x, P x → R x i0 = none)
    (hP : ∀ x, P x → P (updateVec x relax (R x))) :
    ∀ m k x, P x → x i0 = none → (fpiGo R eps relax m x k).x i0 = none := by
  intro m
  induction m with
  | zero => intro k x _ hx0; rw [fpiGo_zero]; exact hx0
  | succ m ih =>
    intro k x hx _
    rw [fpiGo_succ_fail R eps relax m x k (not_resBelow_of_none i0 (hR x hx))]
    exact ih (k + 1) (updateVec x relax (R x)) (hP x hx)
      (updateVec_none x relax (R x) i0 (hR x hx))

/-- Under the hypotheses of `fpiGo_stuck`, the final state's component `i0`
is NaN as soon as at least one update has run. -/
lemma fpiGo_stuck_x {n : ℕ} (R : Vec n → Vec n) (eps relax : ℝ) (i0 : Fin n)
    (P : Vec n → Prop) (hR : ∀ x, P x → R x i0 = none)
    (hP : ∀ x, P x → P (updateVec x relax (R x))) :
    ∀ m k x, P x → (fpiGo R eps relax (m + 1) x k).x i0 = none := by
  intro m k x hx
  rw [fpiGo_succ_fail R eps relax m x k (not_resBelow_of_none i0 (hR x hx))]
  exact fpiGo_none_frozen R eps relax i0 P hR hP m (k + 1) (updateVec x relax (R x))
    (hP x hx) (updateVec_none x relax (R x) i0 (hR x hx))

/-- An invariant preserved by the update holds at any converged final state,
which moreover passes the stopping test. -/
lemma fpiGo_converged_inv {n : ℕ} (R : Vec n → Vec n) (eps relax : ℝ)
    (Q : Vec n → Prop) (hQ : ∀ x, Q x → Q (updateVec x relax (R x))) :
    ∀ m k x, Q x → (fpiGo R eps relax m x k).converged = true →
      Q ((fpiGo R eps relax m x k).x) ∧
        resBelow (R ((fpiGo R eps relax m x k).x)) eps := by
  intro m
  induction m with
  | zero =>
    intro k x _ hc
    rw [fpiGo_zero] at hc
    exact absurd hc (by simp)
  | succ m ih =>
    intro k x hx hc
    by_cases h : resBelow (R x) eps
    · rw [fpiGo_succ_pass R eps relax m x k h]
      exact ⟨hx, h⟩
    · rw [fpiGo_succ_fail R eps relax m x k h] at hc ⊢
      exact ih (k + 1) (updateVec x relax (R x)) (hQ x hx) hc

/-! ## Model-specific lemmas

At `Ctprime = 0` the iterative residuals divide by zero (`0/0`, NaN in
NumPy), so the induction residual component is NaN at every state and the
iteration can never converge: the spec itself flags `Ctprime = 0` as a
malformed input for these equations (§7). -/

/-- At `Ctprime = 0` the `Heck` induction residual `e_a` is NaN at every
state: its denominator `sqrt(Ctprime) * cos(yaw)` is zero. -/
lemma heck_residual_zero_none (yaw : ℝ) (x : Vec 3) :
    Heck.residual 0 yaw x 0 = none := by
  simp [Heck.residual]

/-- At `Ctprime = 0` the `UnifiedMomentum` induction residual `e_an` is NaN
at every state: `-dp / (0.5 * Ctprime * cos(yaw)**2)` divides by zero. -/
lemma unified_residual_zero_none (m : UnifiedMomentum) (yaw : ℝ) (x : Vec 4) :
    UnifiedMomentum.residual m (dC 0) yaw x 0 = none := by
  simp [UnifiedMomentum.residual]

/-- A NaN `an` state component makes the `UnifiedMomentum` induction
residual NaN. -/
lemma unified_residual_an_none (m : UnifiedMomentum) (Ctprime : D) (yaw : ℝ)
    (y : Vec 4) (h : y 0 = none) :
    UnifiedMomentum.residual m Ctprime yaw y 0 = none := by
  simp [UnifiedMomentum.residual, h]

/-- Invariant driving `ThrustBasedUnified` non-convergence at `Ct = 0`:
either the `Ctprime` state component is zero (as at the initial guess,
`np.sign(0) = 0`) or `an` is already NaN; in both cases `e_an` is NaN. -/
lemma tb_residual_zero_none (m : UnifiedMomentum) (Ct yaw : ℝ) (x : Vec 5)
    (hx : x 4 = dC 0 ∨ x 0 = none) :
    ThrustBasedUnified.residual m Ct yaw x 0 = none := by
  have hr : ThrustBasedUnified.residual m Ct yaw x 0 =
      UnifiedMomentum.residual m (x 4) yaw ![x 0, x 1, x 2, x 3] 0 := by
    simp [ThrustBasedUnified.residual]
  rw [hr]
  rcases hx with h | h
  · rw [h]
    exact unified_residual_zero_none m yaw _
  · exact unified_residual_an_none m (x 4) yaw _ (by rw [vec4_at0]; exact h)

/-- The `ThrustBasedUnified` invariant is preserved by the relaxed update. -/
lemma tb_inv_step (m : UnifiedMomentum) (Ct yaw relax : ℝ) (x : Vec 5)
    (hx : x 4 = dC 0 ∨ x 0 = none) :
    updateVec x relax (ThrustBasedUnified.residual m Ct yaw x) 4 = dC 0 ∨
      updateVec x relax (ThrustBasedUnified.residual m Ct yaw x) 0 = none := by
  right
  exact updateVec_none x relax _ 0 (tb_residual_zero_none m Ct yaw x hx)

/-- At zero yaw the lateral-velocity state component of `Heck` is either
exactly zero or NaN, and the relaxed update preserves this: the `e_v4`
residual carries the factor `sin(0) * cos(0)**2 = 0`. -/
lemma heck_v4_inv_step (c relax : ℝ) (x : Vec 3)
    (hx : x 2 = some 0 ∨ x 2 = none) :
    updateVec x relax (Heck.residual c 0 x) 2 = some 0 ∨
      updateVec x relax (Heck.residual c 0 x) 2 = none := by
  cases h0 : x 0 with
  | none =>
    right
    simp [updateVec, Heck.residual, h0]
  | some a =>
    rcases hx with h2 | h2
    · left
      simp [updateVec, Heck.residual, h0, h2]
    · right
      simp [updateVec, Heck.residual, h0, h2]

/-- At zero yaw, whenever the `Heck` fixed-point iteration converges, the
lateral velocity of the converged state is exactly zero. -/
lemma heck_fpi_v4_zero (c eps relax : ℝ) (maxiter : ℕ) (x0v : Vec 3)
    (hQ0 : x0v 2 = some 0 ∨ x0v 2 = none)
    (hc : (fixedpointiteration (Heck.residual c 0) x0v maxiter eps relax).converged = true) :
    (fixedpointiteration (Heck.residual c 0) x0v maxiter eps relax).x 2 = some 0 := by
  simp only [fixedpointiteration] at hc ⊢
  obtain ⟨hQ, hbel⟩ := fpiGo_converged_inv (Heck.residual c 0) eps relax
    (fun y => y 2 = some 0 ∨ y 2 = none)
    (fun y hy => heck_v4_inv_step c relax y hy) maxiter 0 x0v hQ0 hc
  rcases hQ with h2 | h2
  · exact h2
  · exfalso
    obtain ⟨v, hv, _⟩ := hbel 2
    have hnone : Heck.residual c 0 ((fpiGo (Heck.residual c 0) eps relax maxiter x0v 0).x) 2 =
        none := by
      simp [Heck.residual, h2]
    rw [hnone] at hv
    exact Option.noConfusion hv

/-- The initial guess of `Heck` at zero yaw has lateral velocity exactly
zero, or NaN at the singular loading `Ctprime = -4`. -/
lemma heck_ic_v4 (c : ℝ) :
    Heck.initial_condition c 0 2 = some 0 ∨ Heck.initial_condition c 0 2 = none := by
  have hic : Heck.initial_condition c 0 2 = (LimitedHeck.solve c 0).v4 := by
    simp [Heck.initial_condition]
  rw [hic]
  by_cases h : ((4 + c * Real.cos 0 ^ 2) ^ 2 : ℝ) = 0
  · right
    simp only [LimitedHeck.solve]
    rw [dC_eq_some, dC_eq_some]
    exact dDiv_zero_denom _ h
  · left
    simp only [LimitedHeck.solve]
    rw [dC_eq_some, dC_eq_some, dDiv_some_some _ _ h]
    norm_num

/-- `Heck.solve` at `Ctprime = 0` never converges (for any yaw, tolerance,
iteration budget or initial guess), and the failure substitution yields NaN
states with a zero `dp`. -/
lemma heck_solve_zero_stuck (yaw : ℝ) (x0a : Option (Vec 3)) (eps : ℝ)
    (maxiter : ℕ) :
    (Heck.solve 0 yaw x0a eps maxiter).converged = false ∧
      (Heck.solve 0 yaw x0a eps maxiter).an = none ∧
      (Heck.solve 0 yaw x0a eps maxiter).u4 = none ∧
      (Heck.solve 0 yaw x0a eps maxiter).v4 = none ∧
      (Heck.solve 0 yaw x0a eps maxiter).dp = some 0 := by
  have hstuck : ∀ m k x,
      (fpiGo (Heck.residual 0 yaw) eps (Heck.relaxFor 0) m x k).converged = false :=
    fun m k x => fpiGo_stuck (Heck.residual 0 yaw) eps (Heck.relaxFor 0) 0
      (fun _ => True) (fun z _ => heck_residual_zero_none yaw z)
      (fun _ _ => trivial) m k x trivial
  refine ⟨?_, ?_, ?_, ?_, ?_⟩ <;>
    simp [Heck.solve, fixedpointiteration, hstuck maxiter 0]

/-- `UnifiedMomentum.solve` at `Ctprime = 0` never converges, and the
failure substitution yields NaN in all four state fields. -/
lemma unified_solve_zero_stuck (m : UnifiedMomentum) (yaw : ℝ)
    (x0a : Option (Vec 4)) (maxiter : ℕ) (relax eps : ℝ) :
    (m.solve 0 yaw x0a maxiter relax eps).converged = false ∧
      (m.solve 0 yaw x0a maxiter relax eps).an = none ∧
      (m.solve 0 yaw x0a maxiter relax eps).u4 = none ∧
      (m.solve 0 yaw x0a maxiter relax eps).v4 = none ∧
      (m.solve 0 yaw x0a maxiter relax eps).dp = none := by
  have hstuck : ∀ mm k x,
      (fpiGo (m.residual (some 0) yaw) eps relax mm x k).converged = false :=
    fun mm k x => fpiGo_stuck (m.residual (some 0) yaw) eps relax 0
      (fun _ => True) (fun z _ => unified_residual_zero_none m yaw z)
      (fun _ _ => trivial) mm k x trivial
  refine ⟨?_, ?_, ?_, ?_, ?_⟩ <;>
    simp [UnifiedMomentum.solve, fixedpointiteration, hstuck maxiter 0]

/-- `ThrustBasedUnified.solve` at `Ct = 0` never converges; after at least
one iteration the raw returned `an` is NaN. -/
lemma tb_solve_zero_stuck (m : UnifiedMomentum) (yaw : ℝ) (x0a : Option (Vec 5))
    (relax : ℝ) (maxiter : ℕ) (eps : ℝ) :
    (ThrustBasedUnified.solve m 0 yaw x0a relax maxiter eps).converged = false ∧
      (1 ≤ maxiter →
        (ThrustBasedUnified.solve m 0 yaw x0a relax maxiter eps).an = none) := by
  have hP0 : ThrustBasedUnified.initial_condition 0 4 = dC 0 ∨
      ThrustBasedUnified.initial_condition 0 0 = none := by
    left
    simp [ThrustBasedUnified.initial_condition]
  constructor
  · have hstuck := fpiGo_stuck (ThrustBasedUnified.residual m 0 yaw) eps relax 0
      (fun x => x 4 = dC 0 ∨ x 0 = none)
      (fun z hz => tb_residual_zero_none m 0 yaw z hz)
      (fun z hz => tb_inv_step m 0 yaw relax z hz) maxiter 0 _ hP0
    simpa [ThrustBasedUnified.solve, fixedpointiteration] using hstuck
  · intro hm
    obtain ⟨mm, rfl⟩ : ∃ mm, maxiter = mm + 1 :=
      ⟨maxiter - 1, (Nat.succ_pred_eq_of_pos hm).symm⟩
    have hx := fpiGo_stuck_x (ThrustBasedUnified.residual m 0 yaw) eps relax 0
      (fun x => x 4 = dC 0 ∨ x 0 = none)
      (fun z hz => tb_residual_zero_none m 0 yaw z hz)
      (fun z hz => tb_inv_step m 0 yaw relax z hz) mm 0 _ hP0
    simpa [ThrustBasedUnified.solve, fixedpointiteration] using hx

/-- The `Heck` residual at `(Ctprime, yaw) = (1, 0)` and state `(0, 1, 0)`
is finite and below a tolerance of `10` in every component. -/
lemma heck_res_state1 : resBelow (Heck.residual 1 0 ![some 0, some 1, some 0]) 10 := by
  rw [resBelow3_iff]
  refine ⟨⟨1, ?_, by rw [abs_lt]; norm_num⟩,
    ⟨-(1 / 2), ?_, by rw [abs_lt]; norm_num⟩,
    ⟨0, ?_, by rw [abs_lt]; norm_num⟩⟩ <;>
    norm_num [Heck.residual, Real.cos_zero, Real.sin_zero]

/-- The `Heck` residual at `(Ctprime, yaw) = (1, 0)` and state `(1/2, 1, 0)`
is finite and below a tolerance of `10` in every component. -/
lemma heck_res_state2 :
    resBelow (Heck.residual 1 0 ![some (1 / 2), some 1, some 0]) 10 := by
  rw [resBelow3_iff]
  refine ⟨⟨1 / 2, ?_, by rw [abs_lt]; norm_num⟩,
    ⟨-(1 / 4), ?_, by rw [abs_lt]; norm_num⟩,
    ⟨0, ?_, by rw [abs_lt]; norm_num⟩⟩ <;>
    norm_num [Heck.residual, Real.cos_zero, Real.sin_zero]

/-- With a loose tolerance a supplied initial guess is returned converged by
`Heck.solve`, so different guesses yield different records. -/
lemma heck_solve_x0_state1 :
    (Heck.solve 1 0 (some ![some 0, some 1, some 0]) 10 1).an = some 0 := by
  have hsol : fpiGo (Heck.residual 1 0) 10 (Heck.relaxFor 1) 1
      ![some 0, some 1, some 0] 0 = ⟨![some 0, some 1, some 0], 1, true⟩ :=
    fpiGo_one_pass _ _ _ _ _ heck_res_state1
  simp [Heck.solve, fixedpointiteration, hsol]

/-- Companion to `heck_solve_x0_state1` for the second guess. -/
lemma heck_solve_x0_state2 :
    (Heck.solve 1 0 (some ![some (1 / 2), some 1, some 0]) 10 1).an = some (1 / 2) := by
  have hsol : fpiGo (Heck.residual 1 0) 10 (Heck.relaxFor 1) 1
      ![some (1 / 2), some 1, some 0] 0 = ⟨![some (1 / 2), some 1, some 0], 1, true⟩ :=
    fpiGo_one_pass _ _ _ _ _ heck_res_state2
  simp only [Heck.solve, fixedpointiteration, Option.getD_some]
  rw [hsol]
  simp

/-! ## Claims -/

/-- C10: for every input and regardless of convergence, `Heck.solve` returns
a record whose `dp` field is zero — this model never computes a
pressure-drop term (`dp = np.zeros_like(a)` in both branches). -/
theorem heck_dp_always_zero (Ctprime yaw : ℝ) (x0a : Option (Vec 3))
    (eps : ℝ) (maxiter : ℕ) :
    (Heck.solve Ctprime yaw x0a eps maxiter).dp = some 0 := by
  simp [Heck.solve]

/-- C1 (amended): when `Heck.solve` reports `converged = false`, the three
iterated state fields `an, u4, v4` are NaN, but `dp` is zero (the source
forms `dp = np.zeros_like(a)` after the NaN substitution, so `dp` is never
NaN), while `Ctprime`, `yaw` and `niter` retain their last-attempted
values (`niter` is exactly the engine's count). -/
theorem heck_nonconvergence_substitution (Ctprime yaw : ℝ)
    (x0a : Option (Vec 3)) (eps : ℝ) (maxiter : ℕ)
    (h : (Heck.solve Ctprime yaw x0a eps maxiter).converged = false) :
    (Heck.solve Ctprime yaw x0a eps maxiter).an = none ∧
      (Heck.solve Ctprime yaw x0a eps maxiter).u4 = none ∧
      (Heck.solve Ctprime yaw x0a eps maxiter).v4 = none ∧
      (Heck.solve Ctprime yaw x0a eps maxiter).dp = some 0 ∧
      (Heck.solve Ctprime yaw x0a eps maxiter).Ctprime = some Ctprime ∧
      (Heck.solve Ctprime yaw x0a eps maxiter).yaw = yaw ∧
      (Heck.solve Ctprime yaw x0a eps maxiter).niter =
        (fixedpointiteration (Heck.residual Ctprime yaw)
          (x0a.getD (Heck.initial_condition Ctprime yaw)) maxiter eps
          (Heck.relaxFor Ctprime)).niter := by
  simp only [Heck.solve, fixedpointiteration] at h ⊢
  refine ⟨?_, ?_, ?_, ?_, ?_, ?_, ?_⟩ <;> simp [h]

/-- Witness for C1: a forced non-convergence (`maxiter = 0`) at
`Ctprime = 1, yaw = 0` exercises the substitution. -/
theorem heck_nonconvergence_substitution_witness :
    (Heck.solve 1 0 none (1 / 100000) 0).converged = false ∧
      (Heck.solve 1 0 none (1 / 100000) 0).an = none := by
  have h : (Heck.solve 1 0 none (1 / 100000) 0).converged = false := by
    simp [Heck.solve, fixedpointiteration, fpiGo_zero]
  exact ⟨h, (heck_nonconvergence_substitution 1 0 none (1 / 100000) 0 h).1⟩

/-- Counterexample for C1 as stated: on this non-converged solve the `dp`
field is `0`, not NaN, so "all four state fields equal not-a-number" fails
(the claim demanded `dp` be NaN). -/
theorem heck_nonconvergence_dp_is_zero :
    (Heck.solve 1 0 none (1 / 100000) 0).converged = false ∧
      (Heck.solve 1 0 none (1 / 100000) 0).dp = some 0 := by
  constructor
  · simp [Heck.solve, fixedpointiteration, fpiGo_zero]
  · simp [Heck.solve]

/-- C2 (amended): `solve(Ctprime=0, yaw=0)` returns
`an = 0, u4 = 1, v4 = 0, dp = 0, converged = true` on the closed-form
limiting model only.  On the three iterative models the residuals divide by
zero at `Ctprime = 0` (NaN in NumPy), the iteration can never converge for
any tolerance, budget, relaxation or initial guess, and the returned record
has `converged = false` with NaN `an` (`Heck` and `UnifiedMomentum`
substitute NaN into all iterated fields; `ThrustBasedUnified` merely reports
the failure). -/
theorem zero_loading_boundary_amended :
    ((LimitedHeck.solve 0 0).an = some 0 ∧ (LimitedHeck.solve 0 0).u4 = some 1 ∧
      (LimitedHeck.solve 0 0).v4 = some 0 ∧ (LimitedHeck.solve 0 0).dp = some 0 ∧
      (LimitedHeck.solve 0 0).converged = true) ∧
    (∀ (x0a : Option (Vec 3)) (eps : ℝ) (maxiter : ℕ),
      (Heck.solve 0 0 x0a eps maxiter).converged = false ∧
        (Heck.solve 0 0 x0a eps maxiter).an = none) ∧
    (∀ (m : UnifiedMomentum) (x0a : Option (Vec 4)) (maxiter : ℕ) (relax eps : ℝ),
      (m.solve 0 0 x0a maxiter relax eps).converged = false ∧
        (m.solve 0 0 x0a maxiter relax eps).an = none) ∧
    (∀ (m : UnifiedMomentum) (x0a : Option (Vec 5)) (relax : ℝ) (maxiter : ℕ) (eps : ℝ),
      (ThrustBasedUnified.solve m 0 0 x0a relax maxiter eps).converged = false) := by
  refine ⟨?_, ?_, ?_, ?_⟩
  · refine ⟨?_, ?_, ?_, ?_, rfl⟩ <;> norm_num [LimitedHeck.solve]
  · intro x0a eps maxiter
    exact ⟨(heck_solve_zero_stuck 0 x0a eps maxiter).1,
      (heck_solve_zero_stuck 0 x0a eps maxiter).2.1⟩
  · intro m x0a maxiter relax eps
    exact ⟨(unified_solve_zero_stuck m 0 x0a maxiter relax eps).1,
      (unified_solve_zero_stuck m 0 x0a maxiter relax eps).2.1⟩
  · intro m x0a relax maxiter eps
    exact (tb_solve_zero_stuck m 0 x0a relax maxiter eps).1

/-- Counterexample for C2 as stated: at `Ctprime = 0, yaw = 0` with the
default tolerance `1e-5` and a hundred iterations the Iterative
Coupled-Velocity Model does not return `converged = true`. -/
theorem zero_loading_boundary_counterexample :
    (Heck.solve 0 0 none (1 / 100000) 100).converged = false :=
  (heck_solve_zero_stuck 0 none (1 / 100000) 100).1

/-- C5: `ThrustBasedUnified.solve` performs no NaN substitution: the raw
engine iterate (including the solved `Ctprime`) is returned as-is, with the
`converged` flag reporting the iteration outcome; the closed conjunct shows
a non-converged run whose fields are ordinary values, not NaN. -/
theorem tb_no_nan_substitution (m : UnifiedMomentum) (Ct yaw : ℝ)
    (x0a : Option (Vec 5)) (relax : ℝ) (maxiter : ℕ) (eps : ℝ) :
    ((ThrustBasedUnified.solve m Ct yaw x0a relax maxiter eps).an =
        (fixedpointiteration (ThrustBasedUnified.residual m Ct yaw)
          (ThrustBasedUnified.initial_condition Ct) maxiter eps relax).x 0 ∧
      (ThrustBasedUnified.solve m Ct yaw x0a relax maxiter eps).u4 =
        (fixedpointiteration (ThrustBasedUnified.residual m Ct yaw)
          (ThrustBasedUnified.initial_condition Ct) maxiter eps relax).x 1 ∧
      (ThrustBasedUnified.solve m Ct yaw x0a relax maxiter eps).v4 =
        (fixedpointiteration (ThrustBasedUnified.residual m Ct yaw)
          (ThrustBasedUnified.initial_condition Ct) maxiter eps relax).x 2 ∧
      (ThrustBasedUnified.solve m Ct yaw x0a relax maxiter eps).dp =
        (fixedpointiteration (ThrustBasedUnified.residual m Ct yaw)
          (ThrustBasedUnified.initial_condition Ct) maxiter eps relax).x 3 ∧
      (ThrustBasedUnified.solve m Ct yaw x0a relax maxiter eps).Ctprime =
        (fixedpointiteration (ThrustBasedUnified.residual m Ct yaw)
          (ThrustBasedUnified.initial_condition Ct) maxiter eps relax).x 4 ∧
      (ThrustBasedUnified.solve m Ct yaw x0a relax maxiter eps).converged =
        (fixedpointiteration (ThrustBasedUnified.residual m Ct yaw)
          (ThrustBasedUnified.initial_condition Ct) maxiter eps relax).converged ∧
      (ThrustBasedUnified.solve m Ct yaw x0a relax maxiter eps).niter =
        (fixedpointiteration (ThrustBasedUnified.residual m Ct yaw)
          (ThrustBasedUnified.initial_condition Ct) maxiter eps relax).niter) ∧
    ((ThrustBasedUnified.solve testModelZero 0 0 none (1 / 4) 0 (1 / 100000)).converged
        = false ∧
      (ThrustBasedUnified.solve testModelZero 0 0 none (1 / 4) 0 (1 / 100000)).an
        = some 0) := by
  constructor
  · exact ⟨rfl, rfl, rfl, rfl, rfl, rfl, rfl⟩
  · constructor
    · simp [ThrustBasedUnified.solve, fixedpointiteration, fpiGo_zero]
    · simp [ThrustBasedUnified.solve, fixedpointiteration, fpiGo_zero,
        ThrustBasedUnified.initial_condition]

/-- C3 (amended): only `Heck.solve` honors a supplied `x0` (its iteration
starts from the supplied guess, so two different guesses can produce
different records, as the closed conjunct shows); `UnifiedMomentum.solve`
and `ThrustBasedUnified.solve` unconditionally recompute the initial guess
and silently discard any supplied `x0` — their results are identical to the
default-`x0` call for every input. -/
theorem x0_override_amended :
    (∀ (m : UnifiedMomentum) (Ctprime yaw : ℝ) (x0a : Option (Vec 4))
        (maxiter : ℕ) (relax eps : ℝ),
      m.solve Ctprime yaw x0a maxiter relax eps =
        m.solve Ctprime yaw none maxiter relax eps) ∧
    (∀ (m : UnifiedMomentum) (Ct yaw : ℝ) (x0a : Option (Vec 5)) (relax : ℝ)
        (maxiter : ℕ) (eps : ℝ),
      ThrustBasedUnified.solve m Ct yaw x0a relax maxiter eps =
        ThrustBasedUnified.solve m Ct yaw none relax maxiter eps) ∧
    (∀ (Ctprime yaw : ℝ) (v : Vec 3) (eps : ℝ) (maxiter : ℕ),
      (Heck.solve Ctprime yaw (some v) eps maxiter).converged =
          (fixedpointiteration (Heck.residual Ctprime yaw) v maxiter eps
            (Heck.relaxFor Ctprime)).converged ∧
        (Heck.solve Ctprime yaw (some v) eps maxiter).niter =
          (fixedpointiteration (Heck.residual Ctprime yaw) v maxiter eps
            (Heck.relaxFor Ctprime)).niter ∧
        (Heck.solve Ctprime yaw (some v) eps maxiter).an =
          (if (fixedpointiteration (Heck.residual Ctprime yaw) v maxiter eps
              (Heck.relaxFor Ctprime)).converged
            then (fixedpointiteration (Heck.residual Ctprime yaw) v maxiter eps
              (Heck.relaxFor Ctprime)).x 0
            else none)) ∧
    ((Heck.solve 1 0 (some ![some 0, some 1, some 0]) 10 1).an = some 0 ∧
      (Heck.solve 1 0 (some ![some (1 / 2), some 1, some 0]) 10 1).an =
        some (1 / 2)) := by
  refine ⟨fun m c y x0a mi r e => rfl, fun m c y x0a r mi e => rfl,
    fun c y v e mi => ⟨rfl, rfl, rfl⟩,
    heck_solve_x0_state1, heck_solve_x0_state2⟩

/-- Counterexample for C3 as stated: on `UnifiedMomentum.solve`, two calls
with different explicit `x0` values produce identical records (the supplied
guess is silently discarded), refuting "for every model ... the iteration
starts from that supplied initial guess". -/
theorem x0_override_counterexample :
    UnifiedMomentum.solve testModelZero 1 0
        (some ![some 0, some 0, some 0, some 0]) 3 (1 / 4) (1 / 100000) =
      UnifiedMomentum.solve testModelZero 1 0
        (some ![some 1, some 0, some 0, some 0]) 3 (1 / 4) (1 / 100000) ∧
    (![some 0, some 0, some 0, some 0] : Vec 4) ≠
      (![some 1, some 0, some 0, some 0] : Vec 4) := by
  constructor
  · rfl
  · intro h
    have h0 := congrFun h 0
    simp only [vec4_at0] at h0
    have h1 := Option.some.inj h0
    norm_num at h1

/-- C7: `Heck.solve` selects the relaxation factor as `0.9` exactly when
`Ctprime` exceeds `15` and `0.1` otherwise, and hands that value to the
fixed-point iteration engine as an argument (the threshold policy lives in
the model, outside the engine). -/
theorem heck_relaxation_policy (Ctprime : ℝ) :
    (15 < Ctprime → Heck.relaxFor Ctprime = 0.9) ∧
      (Ctprime ≤ 15 → Heck.relaxFor Ctprime = 0.1) ∧
      ∀ (yaw : ℝ) (x0a : Option (Vec 3)) (eps : ℝ) (maxiter : ℕ),
        (Heck.solve Ctprime yaw x0a eps maxiter).converged =
            (fixedpointiteration (Heck.residual Ctprime yaw)
              (x0a.getD (Heck.initial_condition Ctprime yaw)) maxiter eps
              (Heck.relaxFor Ctprime)).converged ∧
          (Heck.solve Ctprime yaw x0a eps maxiter).niter =
            (fixedpointiteration (Heck.residual Ctprime yaw)
              (x0a.getD (Heck.initial_condition Ctprime yaw)) maxiter eps
              (Heck.relaxFor Ctprime)).niter := by
  refine ⟨fun h => if_pos h, fun h => if_neg (not_lt.mpr h), fun y x0a e mi => ⟨rfl, rfl⟩⟩

/-- Witness for C7: the policy evaluated on both sides of the threshold,
and one pass-through instance. -/
theorem heck_relaxation_policy_witness :
    Heck.relaxFor 16 = 0.9 ∧ Heck.relaxFor 3 = 0.1 ∧
      (Heck.solve 16 0 none 1 0).converged =
        (fixedpointiteration (Heck.residual 16 0)
          ((none : Option (Vec 3)).getD (Heck.initial_condition 16 0)) 0 1
          (Heck.relaxFor 16)).converged :=
  ⟨(heck_relaxation_policy 16).1 (by norm_num),
    (heck_relaxation_policy 3).2.1 (by norm_num),
    ((heck_relaxation_policy 16).2.2 0 none 1 0).1⟩

/-- C6 (amended): `LimitedHeck.solve` always reports `converged = true` and
`niter = 1` without iterating, and away from the singular loading
`4 + Ctprime * cos(yaw)**2 = 0` its outputs are exactly the documented
closed-form expressions with `dp = 0`.  (At the singular loading the
divisions are `0/0` resp. `x/0` and `dp = 0.0 * an` is NaN, not `0`.) -/
theorem limitedheck_closed_form (c y : ℝ) :
    (LimitedHeck.solve c y).converged = true ∧
      (LimitedHeck.solve c y).niter = 1 ∧
      (4 + c * Real.cos y ^ 2 ≠ 0 →
        (LimitedHeck.solve c y).an =
            some (c * Real.cos y ^ 2 / (4 + c * Real.cos y ^ 2)) ∧
          (LimitedHeck.solve c y).u4 =
            some ((4 - c * Real.cos y ^ 2) / (4 + c * Real.cos y ^ 2)) ∧
          (LimitedHeck.solve c y).v4 =
            some (-(4 * c * Real.sin y * Real.cos y ^ 2) /
              (4 + c * Real.cos y ^ 2) ^ 2) ∧
          (LimitedHeck.solve c y).dp = some 0) := by
  refine ⟨rfl, rfl, fun h => ?_⟩
  have h2 : ((4 + c * Real.cos y ^ 2) ^ 2 : ℝ) ≠ 0 := pow_ne_zero 2 h
  refine ⟨?_, ?_, ?_, ?_⟩
  · simp only [LimitedHeck.solve, dC_eq_some]
    rw [dDiv_some_some _ _ h]
  · simp only [LimitedHeck.solve, dC_eq_some]
    rw [dDiv_some_some _ _ h]
  · simp only [LimitedHeck.solve, dC_eq_some]
    rw [dDiv_some_some _ _ h2]
  · simp only [LimitedHeck.solve, dC_eq_some]
    rw [dDiv_some_some _ _ h, dMul_some_some, zero_mul]

/-- Witness for C6: the closed form evaluated at `Ctprime = 1, yaw = 0`. -/
theorem limitedheck_closed_form_witness :
    (LimitedHeck.solve 1 0).an = some (1 / 5) ∧
      (LimitedHeck.solve 1 0).u4 = some (3 / 5) ∧
      (LimitedHeck.solve 1 0).v4 = some 0 ∧
      (LimitedHeck.solve 1 0).dp = some 0 ∧
      (LimitedHeck.solve 1 0).converged = true ∧
      (LimitedHeck.solve 1 0).niter = 1 := by
  obtain ⟨hc, hn, hf⟩ := limitedheck_closed_form 1 0
  obtain ⟨ha, hu, hv, hd⟩ := hf (by norm_num)
  refine ⟨?_, ?_, ?_, hd, hc, hn⟩
  · rw [ha]; norm_num
  · rw [hu]; norm_num
  · rw [hv]; norm_num

/-- Counterexample for C6 as stated: at the singular input
`Ctprime = -4, yaw = 0` the returned `dp` is NaN (`0.0 * an` with `an` from
a division by zero), not `0` — "for every input ... dp = 0" fails. -/
theorem limitedheck_closed_form_counterexample :
    (LimitedHeck.solve (-4) 0).dp = none ∧
      (LimitedHeck.solve (-4) 0).converged = true := by
  constructor
  · norm_num [LimitedHeck.solve]
  · rfl

/-- C8: the derived record properties are pure functions of the stored
fields equal to the documented formulas.  For any record with ordinary
stored values, `Ct = Ctprime * (1-an)**2 * cos(yaw)**2` and
`Cp = Ctprime * ((1-an)*cos(yaw))**3` unconditionally, and the near-wake
length `x0` equals its documented quotient wherever its square root and
divisions are defined.  Reading them constructs fresh values; the record is
immutable. -/
theorem solution_derived_properties (c y a u v d dnl : ℝ) (n : ℕ) (cv : Bool)
    (b : ℝ) :
    (MomentumSolution.mk (some c) y (some a) (some u) (some v) (some d)
        (some dnl) n cv b).Ct = some (c * (1 - a) ^ 2 * Real.cos y ^ 2) ∧
      (MomentumSolution.mk (some c) y (some a) (some u) (some v) (some d)
        (some dnl) n cv b).Cp = some (c * ((1 - a) * Real.cos y) ^ 3) ∧
      (1 + u ≠ 0 → 0 ≤ (1 - a) * Real.cos y / (1 + u) →
        2 / (1 + u) * (b * (1 - u) / 2) ≠ 0 →
        (MomentumSolution.mk (some c) y (some a) (some u) (some v) (some d)
          (some dnl) n cv b).x0 =
          some (Real.cos y * Real.sqrt ((1 - a) * Real.cos y / (1 + u)) /
            (2 / (1 + u) * (b * (1 - u) / 2)))) := by
  refine ⟨?_, ?_, fun h1 h2 h3 => ?_⟩
  · simp [MomentumSolution.Ct]
  · simp [MomentumSolution.Cp]
  · simp only [MomentumSolution.x0, dC_eq_some, dSub_some_some, dAdd_some_some,
      dMul_some_some]
    rw [dDiv_some_some _ _ h1, dSqrt_some_nonneg h2, dMul_some_some,
      dDiv_some_some _ _ h1, dDiv_some_some _ _ (two_ne_zero), dMul_some_some,
      dDiv_some_some _ _ h3]

/-- Witness for C8: the derived properties of a concrete record. -/
theorem solution_derived_properties_witness :
    (MomentumSolution.mk (some 1) 0 (some 0) (some 0) (some 0) (some 0)
        (some 0) 1 true 1).Ct = some 1 ∧
      (MomentumSolution.mk (some 1) 0 (some 0) (some 0) (some 0) (some 0)
        (some 0) 1 true 1).Cp = some 1 ∧
      (MomentumSolution.mk (some 1) 0 (some 0) (some 0) (some 0) (some 0)
        (some 0) 1 true 1).x0 = some 1 := by
  obtain ⟨hct, hcp, hx⟩ := solution_derived_properties 1 0 0 0 0 0 0 1 true 1
  refine ⟨?_, ?_, ?_⟩
  · rw [hct]; norm_num
  · rw [hcp]; norm_num
  · rw [hx (by norm_num) (by norm_num [Real.cos_zero]) (by norm_num)]
    norm_num [Real.cos_zero, Real.sqrt_one]

/-- C9 (amended): at zero yaw the lateral velocity is exactly zero — for the
closed-form model whenever the loading avoids the singular value
`Ctprime = -4` (where `v4` is `0/0`, NaN), and for the iterative model
whenever its solve converges (the initial guess has `v4 = 0` and the
`e_v4` residual carries the factor `sin(yaw) = 0`, so zero is preserved by
every relaxed update; on non-convergence the NaN substitution makes `v4`
NaN instead). -/
theorem zero_yaw_lateral_velocity (c : ℝ) :
    (c ≠ -4 → (LimitedHeck.solve c 0).v4 = some 0) ∧
      ∀ (eps : ℝ) (maxiter : ℕ),
        (Heck.solve c 0 none eps maxiter).converged = true →
          (Heck.solve c 0 none eps maxiter).v4 = some 0 := by
  constructor
  · intro h
    have hb : (4 + c * Real.cos 0 ^ 2 : ℝ) ≠ 0 := by
      simp only [Real.cos_zero, one_pow, mul_one]
      intro h0
      exact h (by linarith)
    have hden : ((4 + c * Real.cos 0 ^ 2) ^ 2 : ℝ) ≠ 0 := pow_ne_zero 2 hb
    simp only [LimitedHeck.solve, dC_eq_some]
    rw [dDiv_some_some _ _ hden]
    norm_num
  · intro eps maxiter hc
    have hc' : (fixedpointiteration (Heck.residual c 0)
        (Heck.initial_condition c 0) maxiter eps (Heck.relaxFor c)).converged
          = true := hc
    have hv := heck_fpi_v4_zero c eps (Heck.relaxFor c) maxiter
      (Heck.initial_condition c 0) (heck_ic_v4 c) hc'
    simp only [Heck.solve, fixedpointiteration, Option.getD_none] at hv hc' ⊢
    rw [hc']
    simpa using hv

/-- The default `Heck` initial guess at `(Ctprime, yaw) = (1, 0)`. -/
lemma heck_ic_eval :
    Heck.initial_condition 1 0 = ![some (1 / 5), some (3 / 5), some 0] := by
  funext i
  fin_cases i <;>
    norm_num [Heck.initial_condition, LimitedHeck.solve, Real.cos_zero,
      Real.sin_zero]

/-- The `Heck` residual at `(1, 0)` vanishes at the default initial guess up
to the loose tolerance `10`. -/
lemma heck_res_default : resBelow (Heck.residual 1 0 (Heck.initial_condition 1 0)) 10 := by
  have hs : dSqrt (some (16 / 25 : ℝ)) = some (4 / 5) := by
    rw [dSqrt_some_nonneg (by norm_num),
      show (16 / 25 : ℝ) = (4 / 5) ^ 2 by norm_num,
      Real.sqrt_sq (by norm_num : (0 : ℝ) ≤ 4 / 5)]
  rw [heck_ic_eval, resBelow3_iff]
  refine ⟨⟨0, ?_, by rw [abs_lt]; norm_num⟩,
    ⟨0, ?_, by rw [abs_lt]; norm_num⟩,
    ⟨0, ?_, by rw [abs_lt]; norm_num⟩⟩ <;>
    norm_num [Heck.residual, Real.cos_zero, Real.sin_zero, hs]

/-- With a loose tolerance, `Heck.solve` at `(1, 0)` converges on the spot. -/
lemma heck_default_converges : (Heck.solve 1 0 none 10 1).converged = true := by
  have hone : fpiGo (Heck.residual 1 0) 10 (Heck.relaxFor 1) 1
      (Heck.initial_condition 1 0) 0 =
        ⟨Heck.initial_condition 1 0, 1, true⟩ :=
    fpiGo_one_pass _ _ _ _ _ heck_res_default
  simp only [Heck.solve, fixedpointiteration, Option.getD_none]
  rw [hone]

/-- Witness for C9: `Ctprime = 1` with a converging iterative solve. -/
theorem zero_yaw_lateral_velocity_witness :
    ((1 : ℝ) ≠ -4 ∧ (LimitedHeck.solve 1 0).v4 = some 0) ∧
      ((Heck.solve 1 0 none 10 1).converged = true ∧
        (Heck.solve 1 0 none 10 1).v4 = some 0) :=
  ⟨⟨by norm_num, (zero_yaw_lateral_velocity 1).1 (by norm_num)⟩,
    ⟨heck_default_converges,
      (zero_yaw_lateral_velocity 1).2 10 1 heck_default_converges⟩⟩

/-- Counterexample for C9 as stated: at the singular loading
`Ctprime = -4` (yaw `0`) the closed-form `v4` is `0/0`, i.e. NaN, not `0`
— "for every Ctprime ... v4 = 0 exactly" fails. -/
theorem zero_yaw_lateral_velocity_counterexample :
    (LimitedHeck.solve (-4) 0).v4 = none := by
  norm_num [LimitedHeck.solve]

/-- C4 (amended): `UnifiedMomentum.solve` stores in `dp_NL` a fresh
collaborator evaluation at the returned final state; `ThrustBasedUnified`
does not — its `dp_NL` stays at the dataclass default `0` (the `dp_NL=p_g`
line is commented out in the source). -/
theorem dp_nl_population_amended :
    (∀ (m : UnifiedMomentum) (c y : ℝ) (x0a : Option (Vec 4)) (mi : ℕ)
        (r e : ℝ),
      (m.solve c y x0a mi r e).dp_NL =
        m.nonlinear_pressure (some c) y ((m.solve c y x0a mi r e).an)
          ((m.solve c y x0a mi r e).u4)) ∧
    (∀ (m : UnifiedMomentum) (Ct y : ℝ) (x0a : Option (Vec 5)) (r : ℝ)
        (mi : ℕ) (e : ℝ),
      (ThrustBasedUnified.solve m Ct y x0a r mi e).dp_NL = some 0) :=
  ⟨fun m c y x0a mi r e => rfl, fun m Ct y x0a r mi e => rfl⟩

lemma sqrt_half_ne : Real.sqrt (1 / 2) ≠ 0 :=
  ne_of_gt (Real.sqrt_pos.mpr (by norm_num))

/-- The near-wake length at the probe state of the C4 counterexample is
exactly `1` because `beta` was tuned to `sqrt(1/2)`. -/
lemma x0length_eval :
    UnifiedMomentum.x0length (Real.sqrt (1 / 2)) 0 (some (1 / 2)) (some 0) =
      some 1 := by
  have hs := sqrt_half_ne
  have harg : ((1 - 1 / 2) * 1 / (1 + 0) : ℝ) = 1 / 2 := by norm_num
  simp only [UnifiedMomentum.x0length, dC_eq_some, dSub_some_some,
    dAdd_some_some, dMul_some_some, Real.cos_zero]
  rw [dDiv_some_some _ _ (by norm_num : (1 + 0 : ℝ) ≠ 0), harg,
    dSqrt_some_nonneg (by norm_num), dMul_some_some,
    dDiv_some_some _ _ (by norm_num : (1 + 0 : ℝ) ≠ 0),
    dDiv_some_some _ _ (two_ne_zero), dMul_some_some,
    dDiv_some_some _ _ (by
      intro h0
      apply hs
      have h2 : (2 / (1 + 0) * (Real.sqrt (1 / 2) * (1 - 0) / 2) : ℝ) =
          Real.sqrt (1 / 2) := by ring
      rw [h2] at h0
      exact h0)]
  have hval : (1 * Real.sqrt (1 / 2) /
      (2 / (1 + 0) * (Real.sqrt (1 / 2) * (1 - 0) / 2)) : ℝ) = 1 := by
    rw [show (2 / (1 + 0) * (Real.sqrt (1 / 2) * (1 - 0) / 2) : ℝ) =
      Real.sqrt (1 / 2) from by ring, one_mul]
    exact div_self hs
  rw [hval]

/-- The collaborator of `testModelSeven` always reports pressure `7`. -/
lemma testModelSeven_pg (ct : D) (y : ℝ) (an u4 : D) :
    testModelSeven.nonlinear_pressure ct y an u4 = some 7 := rfl

/-- The `ThrustBasedUnified` initial guess at `Ct = 1`. -/
lemma tb_ic_eval : ThrustBasedUnified.initial_condition 1 =
    ![some (1 / 2), some 0, some 0, some 0, some 1] := by
  funext i
  fin_cases i <;>
    norm_num [ThrustBasedUnified.initial_condition, npSign]

lemma tbr0 : ThrustBasedUnified.residual testModelSeven 1 0
    ![some (1 / 2), some 0, some 0, some 0, some 1] 0 = some (-(1 / 2)) := by
  norm_num [ThrustBasedUnified.residual, UnifiedMomentum.residual,
    Real.cos_zero]

lemma tbr1 : ThrustBasedUnified.residual testModelSeven 1 0
    ![some (1 / 2), some 0, some 0, some 0, some 1] 1 = some (3 / 4) := by
  have hs : dSqrt (some (9 / 16 : ℝ)) = some (3 / 4) := by
    rw [dSqrt_some_nonneg (by norm_num),
      show (9 / 16 : ℝ) = (3 / 4) ^ 2 by norm_num,
      Real.sqrt_sq (by norm_num : (0 : ℝ) ≤ 3 / 4)]
  norm_num [ThrustBasedUnified.residual, UnifiedMomentum.residual,
    Real.cos_zero, hs]

lemma tbr2 : ThrustBasedUnified.residual testModelSeven 1 0
    ![some (1 / 2), some 0, some 0, some 0, some 1] 2 = some 0 := by
  norm_num [ThrustBasedUnified.residual, UnifiedMomentum.residual,
    Real.cos_zero, Real.sin_zero]

lemma tbr3 : ThrustBasedUnified.residual testModelSeven 1 0
    ![some (1 / 2), some 0, some 0, some 0, some 1] 3 = some (223 / 32) := by
  have hx0 : UnifiedMomentum.x0length testModelSeven.beta 0 (some (1 / 2))
      (some 0) = some 1 := x0length_eval
  have hπ : Real.pi ≠ 0 := Real.pi_ne_zero
  norm_num [ThrustBasedUnified.residual, UnifiedMomentum.residual,
    testModelSeven_pg, Real.cos_zero, hx0, Real.arctan_one, Real.pi_ne_zero,
    mul_comm]
  field_simp
  congr 1
  rw [div_eq_iff (by positivity : (4 * (Real.pi * 2 * 4) : ℝ) ≠ 0)]
  ring

lemma tbr4 : ThrustBasedUnified.residual testModelSeven 1 0
    ![some (1 / 2), some 0, some 0, some 0, some 1] 4 = some 3 := by
  norm_num [ThrustBasedUnified.residual, UnifiedMomentum.residual,
    Real.cos_zero]

/-- The `ThrustBasedUnified` residual at `Ct = 1, yaw = 0` is finite and
below the loose tolerance `10` at the initial guess. -/
lemma tb_res_default : resBelow (ThrustBasedUnified.residual testModelSeven 1 0
    (ThrustBasedUnified.initial_condition 1)) 10 := by
  rw [tb_ic_eval, resBelow5_iff]
  exact ⟨⟨-(1 / 2), tbr0, by rw [abs_lt]; norm_num⟩,
    ⟨3 / 4, tbr1, by rw [abs_lt]; norm_num⟩,
    ⟨0, tbr2, by rw [abs_lt]; norm_num⟩,
    ⟨223 / 32, tbr3, by rw [abs_lt]; norm_num⟩,
    ⟨3, tbr4, by rw [abs_lt]; norm_num⟩⟩

/-- Counterexample for C4 as stated: a converged `ThrustBasedUnified` solve
whose `dp_NL` is the default `0` while a fresh collaborator evaluation at
the converged state is `7` — the claim's "for both members of the Unified
Model family ... stored in dp_NL" fails for the thrust-based member. -/
theorem dp_nl_population_counterexample :
    (ThrustBasedUnified.solve testModelSeven 1 0 none (1 / 4) 1 10).converged
        = true ∧
      (ThrustBasedUnified.solve testModelSeven 1 0 none (1 / 4) 1 10).dp_NL
        = some 0 ∧
      testModelSeven.nonlinear_pressure
        (ThrustBasedUnified.solve testModelSeven 1 0 none (1 / 4) 1 10).Ctprime 0
        (ThrustBasedUnified.solve testModelSeven 1 0 none (1 / 4) 1 10).an
        (ThrustBasedUnified.solve testModelSeven 1 0 none (1 / 4) 1 10).u4
        = some 7 ∧
      (some (0 : ℝ) : D) ≠ some 7 := by
  have hone : fpiGo (ThrustBasedUnified.residual testModelSeven 1 0) 10 (1 / 4)
      1 (ThrustBasedUnified.initial_condition 1) 0 =
        ⟨ThrustBasedUnified.initial_condition 1, 1, true⟩ :=
    fpiGo_one_pass _ _ _ _ _ tb_res_default
  refine ⟨?_, rfl, testModelSeven_pg _ _ _ _, ?_⟩
  · simp only [ThrustBasedUnified.solve, fixedpointiteration]
    rw [hone]
  · intro h
    have h1 := Option.some.inj h
    norm_num at h1

end
